import Mathlib

/-!
# cpp-driver: the Future completion primitive and the C boundary of `cql.cpp`

A shallow embedding of `src/future.hpp` (RefCounted, Future::Error,
Future::ResultOrError, Future) and of the error accessor and the binding
entry points of `src/cql.cpp`.

Conventions of the embedding.

* An object is a record of its data members; a method is a function from the
  record (and the arguments) to the record after the call and the value
  returned.
* A raw pointer to a `Result` is `Option Nat`: `none` is `nullptr`, `some a`
  is the address `a`.  A `std::unique_ptr<T>` is `Option T`: the owned object,
  or `none` when it holds nothing.
* `std::atomic<int>` arithmetic wraps in two's complement (`wrap_int`).
* `delete static_cast<T*>(this)` is recorded in the ghost member `deleted`,
  the number of times the destructor has been run on the object.
* The embedding is sequential: one call runs at a time.  The mutex is
  therefore not represented, `notify_all` has nobody to wake, and a thread
  that parks on the condition variable finds, when it is woken or times out,
  the state it parked with (`cond_wait`).  A `while(!is_set_) cond_.wait(..)`
  loop is run with a fuel that bounds the number of times it may park.
* A call that does not return normally yields a `Fault`.
* Of a destructor only the fact that it ran is recorded (`deleted`); the
  members of a destroyed object are left as they were, and `Future.call`
  lets no call reach them.
-/

namespace cass

/-- A `std::string`: a sequence of bytes. -/
abbrev StdString := List UInt8

/-- Modelled from the spec: the enumeration `CassError` is declared in
`cassandra.h`, which is not among the sources; a code is given by its integer
value. -/
abbrev CassError := Int

/-- Ways in which a call fails to return normally. -/
inductive Fault where
  /-- An `assert` of the source failed. -/
  | assertion
  /-- The thread parked on the condition variable and nobody wakes it. -/
  | blocked
  /-- A method was called on an object whose destructor has already run. -/
  | destroyed
deriving DecidableEq, Repr

deriving instance DecidableEq for Except

/-- Two-complement wrap-around of a 32-bit `int`, as `std::atomic<int>`
arithmetic does. -/
def wrap_int (x : Int) : Int := (x + 2147483648) % 4294967296 - 2147483648

/-- The strong compare-and-exchange of `std::atomic`: given the cell, the
expected value and the desired one, the cell afterwards, the expected value
afterwards and whether the exchange happened. -/
def compare_exchange_strong {α : Type} [DecidableEq α] (cell expected desired : α) :
    α × α × Bool :=
  if cell = expected then (desired, expected, true) else (cell, cell, false)

/-! ## RefCounted -/

/-- The class template `RefCounted<T>`. -/
structure RefCounted where
  ref_count_ : Int
  /-- Ghost: how many times `delete` has run on this object. -/
  deleted : Nat
deriving DecidableEq, Repr

/-- Constructor `RefCounted(int inital_count)`. -/
def RefCounted.new (inital_count : Int) : RefCounted :=
  { ref_count_ := inital_count, deleted := 0 }

/-- Method `retain()`: `ref_count_++`. -/
def RefCounted.retain (self : RefCounted) : RefCounted :=
  { self with ref_count_ := wrap_int (self.ref_count_ + 1) }

/-- Method `release()`: decrement, assert the new count is not negative, and
delete the object when the new count is zero. -/
def RefCounted.release (self : RefCounted) : Except Fault RefCounted :=
  let new_ref_count := wrap_int (self.ref_count_ - 1)
  if new_ref_count ≥ 0 then
    if new_ref_count = 0 then
      .ok { ref_count_ := new_ref_count, deleted := self.deleted + 1 }
    else
      .ok { ref_count_ := new_ref_count, deleted := self.deleted }
  else
    .error Fault.assertion

/-! ## Future::Error and Future::ResultOrError -/

/-- The enumeration `FutureType`. -/
inductive FutureType where
  | CASS_FUTURE_TYPE_SESSION
  | CASS_FUTURE_TYPE_REQUEST
deriving DecidableEq, Repr

/-- The struct `Future::Error`. -/
structure Error where
  code : CassError
  message : StdString
deriving DecidableEq, Repr

/-- The class `Future::ResultOrError`. -/
structure ResultOrError where
  /-- The member `std::atomic<Result*> result_`. -/
  result_ : Option Nat
  /-- The member `std::unique_ptr<const Error> error_`. -/
  error_ : Option Error
deriving DecidableEq, Repr

/-- Constructor `ResultOrError(CassError code, const std::string& message)`. -/
def ResultOrError.of_error (code : CassError) (message : StdString) : ResultOrError :=
  { result_ := none, error_ := some { code := code, message := message } }

/-- Constructor `ResultOrError(Result* result)`. -/
def ResultOrError.of_result (result : Option Nat) : ResultOrError :=
  { result_ := result, error_ := none }

/-- Method `is_error()`: `error_ != nullptr`. -/
def ResultOrError.is_error (self : ResultOrError) : Bool :=
  self.error_ != none

/-- Method `error()`: `error_.get()`. -/
def ResultOrError.error (self : ResultOrError) : Option Error :=
  self.error_

/-- Method `release()`: exchange the stored pointer for `nullptr` and return
what was exchanged out, or `nullptr` when the exchange did not happen. -/
def ResultOrError.release (self : ResultOrError) : ResultOrError × Option Nat :=
  let expected := self.result_
  match compare_exchange_strong self.result_ expected none with
  | (cell, expected, true) => ({ self with result_ := cell }, expected)
  | (cell, _, false) => ({ self with result_ := cell }, none)

/-- The values returned by `n` calls of `release()` in a row, first call
first, and the object after them. -/
def ResultOrError.releases : Nat → ResultOrError → List (Option Nat) × ResultOrError
  | 0, self => ([], self)
  | n + 1, self =>
    let (self1, r) := self.release
    let (rs, self2) := ResultOrError.releases n self1
    (r :: rs, self2)

/-! ## Future -/

/-- The class `Future`, with the members of its base `RefCounted<Future>`. -/
structure Future extends RefCounted where
  type_ : FutureType
  is_set_ : Bool
  /-- The member `std::unique_ptr<ResultOrError> result_or_error_`. -/
  result_or_error_ : Option ResultOrError
deriving DecidableEq, Repr

/-- Constructor `Future(FutureType type)`: `RefCounted(2)`, not set. -/
def Future.new (type : FutureType) : Future :=
  { toRefCounted := RefCounted.new 2, type_ := type, is_set_ := false,
    result_or_error_ := none }

/-- Method `type()`. -/
def Future.type (self : Future) : FutureType := self.type_

/-- Parking on the condition variable (`cond_.wait`, `cond_.wait_for`): no
other call runs meanwhile, so the state on return is the state on entry. -/
def Future.cond_wait (self : Future) : Future := self

/-- Timed parking, `cond_.wait_for(lock, std::chrono::microseconds(timeout))`:
it returns when the timeout has passed, with the state unchanged. -/
def Future.cond_wait_for (self : Future) (_timeout : Nat) : Future := self

/-- Inherited `retain()`. -/
def Future.retain (self : Future) : Future :=
  { self with toRefCounted := self.toRefCounted.retain }

/-- Inherited `release()`. -/
def Future.release (self : Future) : Except Fault Future :=
  match self.toRefCounted.release with
  | .ok rc => .ok { self with toRefCounted := rc }
  | .error e => .error e

/-- Method `wait_for(size_t timeout)`. -/
def Future.wait_for (self : Future) (timeout : Nat) : Future × Bool :=
  let self1 := if !self.is_set_ then self.cond_wait_for timeout else self
  (self1, self1.is_set_)

/-- Method `ready()`: `wait_for(0)`. -/
def Future.ready (self : Future) : Future × Bool :=
  self.wait_for 0

/-- The loop `while(!is_set_) cond_.wait(lock)`; `fuel` bounds the number of
times the thread may park. -/
def Future.wait_loop : Nat → Future → Except Fault Future
  | fuel, self =>
    if self.is_set_ then .ok self
    else
      match fuel with
      | 0 => .error Fault.blocked
      | n + 1 => Future.wait_loop n self.cond_wait

/-- Method `wait()`. -/
def Future.wait (fuel : Nat) (self : Future) : Except Fault Future :=
  Future.wait_loop fuel self

/-- Method `get()`: wait, then `result_or_error_.get()`. -/
def Future.get (fuel : Nat) (self : Future) : Except Fault (Future × Option ResultOrError) :=
  match Future.wait_loop fuel self with
  | .ok self1 => .ok (self1, self1.result_or_error_)
  | .error e => .error e

/-- Method `set_error(CassError code, const std::string& message)`. -/
def Future.set_error (self : Future) (code : CassError) (message : StdString) :
    Except Fault Future :=
  let self1 := { self with result_or_error_ := some (ResultOrError.of_error code message) }
  let self2 := { self1 with is_set_ := true }
  self2.release

/-- Method `set_result(Future::Result* result = nullptr)`; the default
argument is passed as `none`. -/
def Future.set_result (self : Future) (result : Option Nat) : Except Fault Future :=
  let self1 := { self with result_or_error_ := some (ResultOrError.of_result result) }
  let self2 := { self1 with is_set_ := true }
  self2.release

/-! ## Sequences of calls on one Future -/

/-- A call of a method of `Future` (or of its base) with its arguments. -/
inductive Op where
  | ready
  | wait
  | wait_for (timeout : Nat)
  | get
  | set_error (code : CassError) (message : StdString)
  | set_result (result : Option Nat)
  | retain
  | release
deriving DecidableEq, Repr

/-- The completion calls: `set_error` and `set_result`. -/
def Op.is_completion : Op → Bool
  | Op.set_error _ _ => true
  | Op.set_result _ => true
  | _ => false

/-- The reads: `ready`, `wait`, `wait_for` and `get`. -/
def Op.is_read : Op → Bool
  | Op.ready => true
  | Op.wait => true
  | Op.wait_for _ => true
  | Op.get => true
  | _ => false

/-- One call made through a pointer to the Future: calling a method of an
object that has been deleted is a fault; otherwise the method runs.  The
value a read returns is dropped here, only the object is kept. -/
def Future.call (fuel : Nat) (self : Future) (op : Op) : Except Fault Future :=
  if self.deleted ≠ 0 then .error Fault.destroyed
  else
    match op with
    | Op.ready => .ok self.ready.1
    | Op.wait => self.wait fuel
    | Op.wait_for timeout => .ok (self.wait_for timeout).1
    | Op.get =>
      match self.get fuel with
      | .ok (self1, _) => .ok self1
      | .error e => .error e
    | Op.set_error code message => self.set_error code message
    | Op.set_result result => self.set_result result
    | Op.retain => .ok self.retain
    | Op.release => self.release

/-- A sequence of calls, one after the other; it stops at the first fault. -/
def Future.run (fuel : Nat) : Future → List Op → Except Fault Future
  | self, [] => .ok self
  | self, op :: ops =>
    match self.call fuel op with
    | .ok self1 => Future.run fuel self1 ops
    | .error e => .error e

end cass

/-! ## The C boundary: `cql.cpp` -/

/-- Modelled from the spec: the struct `CqlError` is declared in a header that
is not among the sources; these are the members `cql.cpp` reads (`message`, a
`std::string`, and the integers `source` and `code`). -/
structure CqlError where
  message : cass.StdString
  source : Int
  code : Int
deriving DecidableEq, Repr

/-- Modelled from the spec: the macro `CQL_ERROR_NO_ERROR` is defined in a
header that is not among the sources; it is the distinguished "no error"
value of the `CqlError*` every entry point returns, the null pointer by the
comments of the binding functions ("NULL if successful"). -/
def CQL_ERROR_NO_ERROR : Option CqlError := none

/-- Modelled from the spec: the class `CqlStatement` is declared in a header
that is not among the sources; a query statement carries its declared
parameter count, its consistency and its text (`CqlQueryStatement(
paramater_count, consistency)` and `statement(text, length)` in
`cql_session_query`). -/
structure CqlStatement where
  parameter_count : Nat
  consistency : Nat
  statement : cass.StdString
deriving DecidableEq, Repr

/-- The member function `std::string::copy(dest, count, pos)` of the standard
library: `rcount = min(count, size() - pos)` bytes of the string, from `pos`
on, overwrite the start of `dest`; it returns `rcount`.  (It throws when
`pos > size()`: `none`.) -/
def string_copy (s : cass.StdString) (dest : List UInt8) (count pos : Nat) :
    Option (List UInt8 × Nat) :=
  if pos > s.length then none
  else
    let rcount := min count (s.length - pos)
    some ((s.drop pos).take rcount ++ dest.drop rcount, rcount)

/-- The function `cql_error_string(error, output, n, total)`:
`*total = error->message.copy(output, n)`.  It gives the caller's buffer and
`*total` after the call. -/
def cql_error_string (error : CqlError) (output : List UInt8) (n : Nat) :
    Option (List UInt8 × Nat) :=
  string_copy error.message output n 0

/-- The function `cql_error_source`. -/
def cql_error_source (error : CqlError) : Int := error.source

/-- The function `cql_error_code`. -/
def cql_error_code (error : CqlError) : Int := error.code

/-- The function `cql_statement_bind_short` (`int16_t value`). -/
def cql_statement_bind_short (_statement : CqlStatement) (_index : Nat) (_value : Int) :
    Option CqlError :=
  CQL_ERROR_NO_ERROR

/-- The function `cql_statement_bind_int` (`int32_t value`). -/
def cql_statement_bind_int (_statement : CqlStatement) (_index : Nat) (_value : Int) :
    Option CqlError :=
  CQL_ERROR_NO_ERROR

/-- The function `cql_statement_bind_bigint` (`int64_t value`). -/
def cql_statement_bind_bigint (_statement : CqlStatement) (_index : Nat) (_value : Int) :
    Option CqlError :=
  CQL_ERROR_NO_ERROR

/-- The function `cql_statement_bind_float`; the `float` is given by its 32
bits. -/
def cql_statement_bind_float (_statement : CqlStatement) (_index : Nat) (_value : UInt32) :
    Option CqlError :=
  CQL_ERROR_NO_ERROR

/-- The function `cql_statement_bind_double`; the `double` is given by its 64
bits. -/
def cql_statement_bind_double (_statement : CqlStatement) (_index : Nat) (_value : UInt64) :
    Option CqlError :=
  CQL_ERROR_NO_ERROR

/-- The function `cql_statement_bind_bool`; its value parameter is declared
`float` in the source, given here by its 32 bits. -/
def cql_statement_bind_bool (_statement : CqlStatement) (_index : Nat) (_value : UInt32) :
    Option CqlError :=
  CQL_ERROR_NO_ERROR

/-- The function `cql_statement_bind_time` (`int64_t value`). -/
def cql_statement_bind_time (_statement : CqlStatement) (_index : Nat) (_value : Int) :
    Option CqlError :=
  CQL_ERROR_NO_ERROR

/-- The function `cql_statement_bind_uuid`; the `CqlUuid` is given by its
bytes. -/
def cql_statement_bind_uuid (_statement : CqlStatement) (_index : Nat) (_value : List UInt8) :
    Option CqlError :=
  CQL_ERROR_NO_ERROR

/-- The function `cql_statement_bind_counter` (`int64_t value`). -/
def cql_statement_bind_counter (_statement : CqlStatement) (_index : Nat) (_value : Int) :
    Option CqlError :=
  CQL_ERROR_NO_ERROR

/-- The function `cql_statement_bind_string` (`char* value, size_t length`). -/
def cql_statement_bind_string (_statement : CqlStatement) (_index : Nat)
    (_value : List UInt8) (_length : Nat) : Option CqlError :=
  CQL_ERROR_NO_ERROR

/-- The function `cql_statement_bind_blob` (`uint8_t* value, size_t length`). -/
def cql_statement_bind_blob (_statement : CqlStatement) (_index : Nat)
    (_value : List UInt8) (_length : Nat) : Option CqlError :=
  CQL_ERROR_NO_ERROR

/-- The function `cql_statement_bind_decimal` (`uint32_t scale, uint8_t* value,
size_t length`). -/
def cql_statement_bind_decimal (_statement : CqlStatement) (_index : Nat) (_scale : Nat)
    (_value : List UInt8) (_length : Nat) : Option CqlError :=
  CQL_ERROR_NO_ERROR

/-- The function `cql_statement_bind_varint` (`uint8_t* value, size_t length`). -/
def cql_statement_bind_varint (_statement : CqlStatement) (_index : Nat)
    (_value : List UInt8) (_length : Nat) : Option CqlError :=
  CQL_ERROR_NO_ERROR

namespace cass

/-- A Future of type REQUEST that has not been destroyed, with the given share
count and the given stored outcome: pending when the outcome is `none`,
completed otherwise.  It names the states of the worked instances. -/
def Future.state (count : Int) (outcome : Option ResultOrError) : Future :=
  { ref_count_ := count, deleted := 0, type_ := FutureType.CASS_FUTURE_TYPE_REQUEST,
    is_set_ := outcome.isSome, result_or_error_ := outcome }

end cass

/-! ## Auxiliary facts -/

namespace cass

theorem wrap_int_of_range (x : Int) (h1 : -2147483648 ≤ x) (h2 : x < 2147483648) :
    wrap_int x = x := by
  unfold wrap_int
  omega

theorem RefCounted.release_cases (rc : RefCounted) :
    (wrap_int (rc.ref_count_ - 1) = 0 ∧
        rc.release = .ok { ref_count_ := 0, deleted := rc.deleted + 1 }) ∨
    (0 < wrap_int (rc.ref_count_ - 1) ∧
        rc.release = .ok { ref_count_ := wrap_int (rc.ref_count_ - 1), deleted := rc.deleted }) ∨
    (wrap_int (rc.ref_count_ - 1) < 0 ∧ rc.release = .error Fault.assertion) := by
  unfold RefCounted.release
  rcases lt_trichotomy (wrap_int (rc.ref_count_ - 1)) 0 with h | h | h
  · right; right
    refine ⟨h, ?_⟩
    simp [not_le.mpr h]
  · left
    refine ⟨h, ?_⟩
    simp [h]
  · right; left
    refine ⟨h, ?_⟩
    simp [le_of_lt h, ne_of_gt h]

theorem Future.release_ok (f f1 : Future) (h : f.release = .ok f1) :
    f1.is_set_ = f.is_set_ ∧ f1.result_or_error_ = f.result_or_error_ ∧
      f1.type_ = f.type_ ∧ f.toRefCounted.release = .ok f1.toRefCounted := by
  unfold Future.release at h
  cases hr : f.toRefCounted.release with
  | error e => rw [hr] at h; cases h
  | ok rc =>
    rw [hr] at h
    cases h
    exact ⟨rfl, rfl, rfl, rfl⟩

theorem Future.release_of_ge_two (f : Future) (h1 : 2 ≤ f.ref_count_)
    (h2 : f.ref_count_ ≤ 2147483647) :
    f.release = .ok { f with ref_count_ := f.ref_count_ - 1 } := by
  have hw : wrap_int (f.ref_count_ - 1) = f.ref_count_ - 1 :=
    wrap_int_of_range _ (by omega) (by omega)
  unfold Future.release RefCounted.release
  simp only [hw]
  have h3 : f.ref_count_ - 1 ≥ 0 := by omega
  have h4 : ¬ f.ref_count_ - 1 = 0 := by omega
  simp [h3, h4]

theorem Future.wait_loop_of_set (fuel : Nat) (f : Future) (h : f.is_set_ = true) :
    Future.wait_loop fuel f = .ok f := by
  cases fuel <;> simp [Future.wait_loop, h]

theorem Future.wait_loop_ok (fuel : Nat) (f f1 : Future)
    (h : Future.wait_loop fuel f = .ok f1) : f1 = f ∧ f.is_set_ = true := by
  induction fuel with
  | zero =>
    cases hs : f.is_set_ <;> simp [Future.wait_loop, hs] at h
    exact ⟨h.symm, rfl⟩
  | succ n ih =>
    cases hs : f.is_set_
    · simp [Future.wait_loop, hs, Future.cond_wait] at h
      have := (ih h).2
      rw [hs] at this
      cases this
    · simp [Future.wait_loop, hs] at h
      exact ⟨h.symm, rfl⟩

theorem Future.wait_loop_pending (fuel : Nat) (f : Future) (h : f.is_set_ = false) :
    Future.wait_loop fuel f = .error Fault.blocked := by
  induction fuel with
  | zero => simp [Future.wait_loop, h]
  | succ n ih => simpa [Future.wait_loop, h, Future.cond_wait] using ih

theorem Future.wait_for_eq (f : Future) (t : Nat) : f.wait_for t = (f, f.is_set_) := by
  unfold Future.wait_for Future.cond_wait_for
  cases h : f.is_set_ <;> simp [h]

theorem Future.ready_eq (f : Future) : f.ready = (f, f.is_set_) :=
  Future.wait_for_eq f 0

theorem Future.set_error_ok (f f1 : Future) (c : CassError) (m : StdString)
    (h : f.set_error c m = .ok f1) :
    f1.is_set_ = true ∧ f1.result_or_error_ = some (ResultOrError.of_error c m) := by
  unfold Future.set_error at h
  have := Future.release_ok _ _ h
  exact ⟨this.1, this.2.1⟩

theorem Future.set_result_ok (f f1 : Future) (r : Option Nat)
    (h : f.set_result r = .ok f1) :
    f1.is_set_ = true ∧ f1.result_or_error_ = some (ResultOrError.of_result r) := by
  unfold Future.set_result at h
  have := Future.release_ok _ _ h
  exact ⟨this.1, this.2.1⟩

theorem Future.call_read (fuel : Nat) (f : Future) (op : Op) (hs : f.is_set_ = true)
    (ha : f.deleted = 0) (hr : op.is_read = true) : f.call fuel op = .ok f := by
  unfold Future.call
  cases op <;> simp [Op.is_read] at hr <;>
    simp [ha, Future.ready_eq, Future.wait_for_eq, Future.wait, Future.get,
      Future.wait_loop_of_set fuel f hs]

theorem Future.run_reads (fuel : Nat) (f : Future) (ops : List Op) (hs : f.is_set_ = true)
    (ha : f.deleted = 0) (hr : ∀ op ∈ ops, op.is_read = true) : Future.run fuel f ops = .ok f := by
  induction ops with
  | nil => rfl
  | cons op ops ih =>
    have h1 := Future.call_read fuel f op hs ha (hr op (List.mem_cons_self _ _))
    simp only [Future.run, h1]
    exact ih (fun o ho => hr o (List.mem_cons_of_mem _ ho))

theorem Future.call_is_set (fuel : Nat) (f f1 : Future) (op : Op)
    (h : f.call fuel op = .ok f1) :
    (f.is_set_ = true → f1.is_set_ = true) ∧ (op.is_completion = true → f1.is_set_ = true) ∧
      (op.is_completion = false → f1.is_set_ = f.is_set_) := by
  unfold Future.call at h
  by_cases hd : f.deleted = 0
  · simp only [hd, ne_eq, not_true_eq_false, if_false] at h
    cases op with
    | ready =>
      simp [Future.ready_eq] at h
      subst h; simp [Op.is_completion]
    | wait =>
      have := Future.wait_loop_ok fuel f f1 h
      rw [this.1]; simp [Op.is_completion]
    | wait_for t =>
      simp [Future.wait_for_eq] at h
      subst h; simp [Op.is_completion]
    | get =>
      simp only [Future.get] at h
      cases hw : Future.wait_loop fuel f with
      | error e => rw [hw] at h; cases h
      | ok f2 =>
        rw [hw] at h
        simp at h
        have := Future.wait_loop_ok fuel f f2 hw
        rw [← h, this.1]; simp [Op.is_completion]
    | set_error c m =>
      have := (Future.set_error_ok f f1 c m h).1
      simp [this, Op.is_completion]
    | set_result r =>
      have := (Future.set_result_ok f f1 r h).1
      simp [this, Op.is_completion]
    | retain =>
      simp [Future.retain] at h
      subst h; simp [Op.is_completion]
    | release =>
      have := (Future.release_ok f f1 h).1
      simp [this, Op.is_completion]
  · simp [hd] at h

theorem Future.run_is_set (fuel : Nat) (ops : List Op) :
    ∀ (f f1 : Future), Future.run fuel f ops = .ok f1 → f.is_set_ = true → f1.is_set_ = true := by
  induction ops with
  | nil =>
    intro f f1 h hs
    simp [Future.run] at h
    rw [← h]; exact hs
  | cons op ops ih =>
    intro f f1 h hs
    simp only [Future.run] at h
    cases hc : f.call fuel op with
    | error e => rw [hc] at h; cases h
    | ok f2 =>
      rw [hc] at h
      exact ih f2 f1 h ((Future.call_is_set fuel f f2 op hc).1 hs)

theorem Future.run_pending (fuel : Nat) (ops : List Op) :
    ∀ (f f1 : Future), Future.run fuel f ops = .ok f1 →
      (∀ op ∈ ops, op.is_completion = false) → f1.is_set_ = f.is_set_ := by
  induction ops with
  | nil =>
    intro f f1 h _
    simp [Future.run] at h
    rw [← h]
  | cons op ops ih =>
    intro f f1 h hn
    simp only [Future.run] at h
    cases hc : f.call fuel op with
    | error e => rw [hc] at h; cases h
    | ok f2 =>
      rw [hc] at h
      rw [ih f2 f1 h (fun o ho => hn o (List.mem_cons_of_mem _ ho))]
      exact (Future.call_is_set fuel f f2 op hc).2.2 (hn op (List.mem_cons_self _ _))

theorem Future.release_of_one (f : Future) (h : f.ref_count_ = 1) :
    f.release = .ok { f with ref_count_ := 0, deleted := f.deleted + 1 } := by
  unfold Future.release RefCounted.release
  simp [h, wrap_int]

theorem Future.set_error_of_ge_two (f : Future) (c : CassError) (m : StdString)
    (h1 : 2 ≤ f.ref_count_) (h2 : f.ref_count_ ≤ 2147483647) :
    f.set_error c m =
      .ok { ref_count_ := f.ref_count_ - 1, deleted := f.deleted, type_ := f.type_,
            is_set_ := true, result_or_error_ := some (ResultOrError.of_error c m) } := by
  unfold Future.set_error
  exact Future.release_of_ge_two _ h1 h2

theorem Future.set_result_of_ge_two (f : Future) (r : Option Nat)
    (h1 : 2 ≤ f.ref_count_) (h2 : f.ref_count_ ≤ 2147483647) :
    f.set_result r =
      .ok { ref_count_ := f.ref_count_ - 1, deleted := f.deleted, type_ := f.type_,
            is_set_ := true, result_or_error_ := some (ResultOrError.of_result r) } := by
  unfold Future.set_result
  exact Future.release_of_ge_two _ h1 h2

theorem Future.set_error_of_one (f : Future) (c : CassError) (m : StdString)
    (h1 : f.ref_count_ = 1) :
    f.set_error c m =
      .ok { ref_count_ := 0, deleted := f.deleted + 1, type_ := f.type_,
            is_set_ := true, result_or_error_ := some (ResultOrError.of_error c m) } := by
  unfold Future.set_error
  exact Future.release_of_one _ h1

theorem Future.set_result_of_one (f : Future) (r : Option Nat) (h1 : f.ref_count_ = 1) :
    f.set_result r =
      .ok { ref_count_ := 0, deleted := f.deleted + 1, type_ := f.type_,
            is_set_ := true, result_or_error_ := some (ResultOrError.of_result r) } := by
  unfold Future.set_result
  exact Future.release_of_one _ h1

theorem Future.call_alive (fuel : Nat) (f : Future) (hd : f.deleted = 0) :
    (∀ c m, f.call fuel (Op.set_error c m) = f.set_error c m) ∧
    (∀ r, f.call fuel (Op.set_result r) = f.set_result r) ∧
    f.call fuel Op.release = f.release := by
  simp [Future.call, hd]

theorem Future.completion_keeps_alive (fuel : Nat) (f : Future) (comp : Op)
    (hc : comp.is_completion = true) (hd : f.deleted = 0) (h1 : 2 ≤ f.ref_count_)
    (h2 : f.ref_count_ ≤ 2147483647) :
    ∃ f1, f.call fuel comp = .ok f1 ∧ f1.ref_count_ = f.ref_count_ - 1 ∧ f1.deleted = 0 ∧
      f1.is_set_ = true := by
  cases comp <;> simp [Op.is_completion] at hc
  · rename_i c m
    exact ⟨_, ((Future.call_alive fuel f hd).1 c m).trans
      (Future.set_error_of_ge_two f c m h1 h2), rfl, hd, rfl⟩
  · rename_i r
    exact ⟨_, ((Future.call_alive fuel f hd).2.1 r).trans
      (Future.set_result_of_ge_two f r h1 h2), rfl, hd, rfl⟩

theorem Future.completion_last_share (fuel : Nat) (f : Future) (comp : Op)
    (hc : comp.is_completion = true) (hd : f.deleted = 0) (h1 : f.ref_count_ = 1) :
    ∃ f1, f.call fuel comp = .ok f1 ∧ f1.ref_count_ = 0 ∧ f1.deleted = 1 := by
  cases comp <;> simp [Op.is_completion] at hc
  · rename_i c m
    exact ⟨_, ((Future.call_alive fuel f hd).1 c m).trans
      (Future.set_error_of_one f c m h1), rfl, by simp [hd]⟩
  · rename_i r
    exact ⟨_, ((Future.call_alive fuel f hd).2.1 r).trans
      (Future.set_result_of_one f r h1), rfl, by simp [hd]⟩

theorem Future.call_destroyed (fuel : Nat) (f : Future) (op : Op) (hd : f.deleted = 1) :
    f.call fuel op = .error Fault.destroyed := by
  simp [Future.call, hd]

theorem Future.two_party (fuel : Nat) (t : FutureType) (comp : Op)
    (hc : comp.is_completion = true) :
    (∃ f1 f2, (Future.new t).call fuel comp = .ok f1 ∧ f1.ref_count_ = 1 ∧ f1.deleted = 0 ∧
      f1.call fuel Op.release = .ok f2 ∧ f2.ref_count_ = 0 ∧ f2.deleted = 1 ∧
      ∀ op, f2.call fuel op = .error Fault.destroyed) ∧
    (∃ f1 f2, (Future.new t).call fuel Op.release = .ok f1 ∧ f1.ref_count_ = 1 ∧
      f1.deleted = 0 ∧ f1.call fuel comp = .ok f2 ∧ f2.ref_count_ = 0 ∧ f2.deleted = 1 ∧
      ∀ op, f2.call fuel op = .error Fault.destroyed) := by
  constructor
  · obtain ⟨f1, e1, c1, d1, _⟩ := Future.completion_keeps_alive fuel (Future.new t) comp hc rfl
      (by simp [Future.new, RefCounted.new]) (by simp [Future.new, RefCounted.new])
    have c1 : f1.ref_count_ = 1 := by rw [c1]; simp [Future.new, RefCounted.new]
    have e2 : f1.call fuel Op.release =
        .ok { f1 with ref_count_ := 0, deleted := f1.deleted + 1 } :=
      (Future.call_alive fuel f1 d1).2.2.trans (Future.release_of_one f1 c1)
    exact ⟨f1, { f1 with ref_count_ := 0, deleted := f1.deleted + 1 }, e1, c1, d1, e2, rfl,
      by simp [d1], fun op => Future.call_destroyed fuel _ op (by simp [d1])⟩
  · have e1 : (Future.new t).call fuel Op.release =
        .ok { Future.new t with ref_count_ := (Future.new t).ref_count_ - 1 } := by
      simp only [Future.call, Future.new, RefCounted.new, ne_eq, not_true_eq_false, if_false]
      exact Future.release_of_ge_two _ (by simp) (by simp)
    obtain ⟨f2, e2, c2, d2⟩ := Future.completion_last_share fuel
      { Future.new t with ref_count_ := (Future.new t).ref_count_ - 1 } comp hc rfl
      (by simp [Future.new, RefCounted.new])
    exact ⟨{ Future.new t with ref_count_ := (Future.new t).ref_count_ - 1 }, f2, e1,
      by simp [Future.new, RefCounted.new], rfl, e2, c2, d2,
      fun op => Future.call_destroyed fuel _ op d2⟩

theorem ResultOrError.release_eq (roe : ResultOrError) :
    roe.release = ({ roe with result_ := none }, roe.result_) := by
  simp [ResultOrError.release, compare_exchange_strong]

theorem ResultOrError.releases_null (n : Nat) (roe : ResultOrError) (h : roe.result_ = none) :
    roe.releases n = (List.replicate n none, roe) := by
  induction n with
  | zero => rfl
  | succ k ih =>
    have hr : roe.release = (roe, none) := by
      rw [ResultOrError.release_eq, h]
      cases roe
      simp_all
    simp [ResultOrError.releases, hr, ih, List.replicate_succ]

end cass

/-- What `cql_error_string` does for every error, buffer and `n`: the first
`min(n, message_len)` bytes of the buffer become the first bytes of the
message, the rest of the buffer is untouched, and `*total` is the number of
bytes copied. -/
theorem cql_error_string_eq (error : CqlError) (output : List UInt8) (n : Nat) :
    cql_error_string error output n =
      some (error.message.take (min n error.message.length) ++
              output.drop (min n error.message.length),
            min n error.message.length) := by
  simp [cql_error_string, string_copy]

/-! ## The claims -/

/-- C1: `cql_error_string` on the 3-byte message "abc" with a 2-byte buffer
(`n = 2`) copies the 2 bytes "ab" and stores 2 in `*total`, the number of
bytes copied, while the message length is 3: the untruncated length is not
what is reported once the buffer is shorter than the message. -/
theorem cql_error_string_total_is_copied_count :
    cql_error_string { message := [97, 98, 99], source := 0, code := 0 } [0, 0] 2 =
        some ([97, 98], 2) ∧
      (CqlError.message { message := [97, 98, 99], source := 0, code := 0 }).length = 3 := by
  decide

/-- C3 (as stated, refuted): on a statement that declares 2 parameters, binding
at index 5 is accepted: `cql_statement_bind_int` and
`cql_statement_bind_string` return `CQL_ERROR_NO_ERROR`. -/
theorem cql_statement_bind_out_of_range_accepted :
    5 ≥ (CqlStatement.mk 2 1 []).parameter_count ∧
      cql_statement_bind_int (CqlStatement.mk 2 1 []) 5 42 = CQL_ERROR_NO_ERROR ∧
      cql_statement_bind_string (CqlStatement.mk 2 1 []) 5 [120] 1 = CQL_ERROR_NO_ERROR := by
  decide

/-- C3 (amended): every `cql_statement_bind_<type>` entry point returns
`CQL_ERROR_NO_ERROR` for every statement, every index, in range or not, and
every value. -/
theorem cql_statement_bind_always_no_error (statement : CqlStatement) (index : Nat)
    (i : Int) (b32 : UInt32) (b64 : UInt64) (bytes : List UInt8) (length scale : Nat) :
    cql_statement_bind_short statement index i = CQL_ERROR_NO_ERROR ∧
    cql_statement_bind_int statement index i = CQL_ERROR_NO_ERROR ∧
    cql_statement_bind_bigint statement index i = CQL_ERROR_NO_ERROR ∧
    cql_statement_bind_float statement index b32 = CQL_ERROR_NO_ERROR ∧
    cql_statement_bind_double statement index b64 = CQL_ERROR_NO_ERROR ∧
    cql_statement_bind_bool statement index b32 = CQL_ERROR_NO_ERROR ∧
    cql_statement_bind_time statement index i = CQL_ERROR_NO_ERROR ∧
    cql_statement_bind_uuid statement index bytes = CQL_ERROR_NO_ERROR ∧
    cql_statement_bind_counter statement index i = CQL_ERROR_NO_ERROR ∧
    cql_statement_bind_string statement index bytes length = CQL_ERROR_NO_ERROR ∧
    cql_statement_bind_blob statement index bytes length = CQL_ERROR_NO_ERROR ∧
    cql_statement_bind_decimal statement index scale bytes length = CQL_ERROR_NO_ERROR ∧
    cql_statement_bind_varint statement index bytes length = CQL_ERROR_NO_ERROR :=
  ⟨rfl, rfl, rfl, rfl, rfl, rfl, rfl, rfl, rfl, rfl, rfl, rfl, rfl⟩

namespace cass

/-- C4 (as stated, refuted): `set_result()` with its default argument, the
null pointer, on a new Future returns normally and stores an outcome whose
Result and Error are both null. -/
theorem future_set_result_default_both_null :
    Future.set_result (Future.new FutureType.CASS_FUTURE_TYPE_REQUEST) none =
      .ok (Future.state 1 (some { result_ := none, error_ := none })) ∧
    (Future.state 1 (some { result_ := none, error_ := none })).result_or_error_ =
      some { result_ := none, error_ := none } := by
  decide

/-- C4 (amended): the outcome a completion call stores never has both slots
non-null; after `set_error(code, message)` the Result is null and the Error is
not; after `set_result(r)` with a non-null `r` the Result is `r` and the Error
is null; after `set_result()` with a null (or defaulted) argument both are
null. -/
theorem future_outcome_slots (f f1 f2 f3 : Future) (c : CassError) (m : StdString) (r : Nat)
    (h1 : f.set_error c m = .ok f1) (h2 : f.set_result (some r) = .ok f2)
    (h3 : f.set_result none = .ok f3) :
    (∃ roe, f1.result_or_error_ = some roe ∧ roe.result_ = none ∧ roe.error_ ≠ none) ∧
    (∃ roe, f2.result_or_error_ = some roe ∧ roe.result_ = some r ∧ roe.error_ = none) ∧
    (∃ roe, f3.result_or_error_ = some roe ∧ roe.result_ = none ∧ roe.error_ = none) := by
  refine ⟨⟨_, (Future.set_error_ok f f1 c m h1).2, rfl, ?_⟩,
    ⟨_, (Future.set_result_ok f f2 (some r) h2).2, rfl, rfl⟩,
    ⟨_, (Future.set_result_ok f f3 none h3).2, rfl, rfl⟩⟩
  simp [ResultOrError.of_error]

/-- C4 (amended), on a new Future with the error (3, "e"), the Result 7 and
the null Result. -/
theorem future_outcome_slots_witness :
    (Future.new FutureType.CASS_FUTURE_TYPE_REQUEST).set_error 3 [101] =
        .ok (Future.state 1 (some (ResultOrError.of_error 3 [101]))) ∧
    (Future.new FutureType.CASS_FUTURE_TYPE_REQUEST).set_result (some 7) =
        .ok (Future.state 1 (some (ResultOrError.of_result (some 7)))) ∧
    (Future.new FutureType.CASS_FUTURE_TYPE_REQUEST).set_result none =
        .ok (Future.state 1 (some (ResultOrError.of_result none))) ∧
    ((∃ roe, (Future.state 1 (some (ResultOrError.of_error 3 [101]))).result_or_error_ =
          some roe ∧ roe.result_ = none ∧ roe.error_ ≠ none) ∧
      (∃ roe, (Future.state 1 (some (ResultOrError.of_result (some 7)))).result_or_error_ =
          some roe ∧ roe.result_ = some 7 ∧ roe.error_ = none) ∧
      (∃ roe, (Future.state 1 (some (ResultOrError.of_result none))).result_or_error_ =
          some roe ∧ roe.result_ = none ∧ roe.error_ = none)) :=
  ⟨by decide, by decide, by decide,
    future_outcome_slots (Future.new FutureType.CASS_FUTURE_TYPE_REQUEST)
      (Future.state 1 (some (ResultOrError.of_error 3 [101])))
      (Future.state 1 (some (ResultOrError.of_result (some 7))))
      (Future.state 1 (some (ResultOrError.of_result none)))
      3 [101] 7 (by decide) (by decide) (by decide)⟩

/-- C5: of `N + 1` calls of `release()` in a row on a ResultOrError built from
the non-null Result `r`, the first returns `r` and each of the `N` later ones
returns null, so exactly one call returns a non-null pointer; on a
ResultOrError built from an error every call returns null. -/
theorem result_or_error_release_exactly_once (r N : Nat) (c : CassError) (m : StdString) :
    ((ResultOrError.of_result (some r)).releases (N + 1)).1 =
        some r :: List.replicate N none ∧
    ((((ResultOrError.of_result (some r)).releases (N + 1)).1).filter Option.isSome).length = 1 ∧
    ((ResultOrError.of_error c m).releases N).1 = List.replicate N none := by
  have hfirst : ((ResultOrError.of_result (some r)).releases (N + 1)).1 =
      some r :: List.replicate N none := by
    simp [ResultOrError.releases, ResultOrError.release_eq, ResultOrError.of_result,
      ResultOrError.releases_null N { result_ := none, error_ := none } rfl]
  refine ⟨hfirst, ?_, ?_⟩
  · rw [hfirst]
    simp [List.filter_cons]
  · rw [ResultOrError.releases_null N _ rfl]

/-- C6 (as stated, refuted): a new Future is completed with `set_result(7)`
and then a second time with `set_error(1, "x")`; both calls return, the second
lowers the share count to 0 and destroys the Future, so the `ready()` that
follows is a call on a destroyed object and does not return true. -/
theorem future_poll_after_second_completion_destroyed :
    Future.run 0 (Future.new FutureType.CASS_FUTURE_TYPE_REQUEST)
        [Op.set_result (some 7), Op.set_error 1 [120]] =
      .ok { ref_count_ := 0, deleted := 1, type_ := FutureType.CASS_FUTURE_TYPE_REQUEST,
            is_set_ := true, result_or_error_ := some (ResultOrError.of_error 1 [120]) } ∧
    Future.call 0
        { ref_count_ := 0, deleted := 1, type_ := FutureType.CASS_FUTURE_TYPE_REQUEST,
          is_set_ := true, result_or_error_ := some (ResultOrError.of_error 1 [120]) }
        Op.ready = .error Fault.destroyed ∧
    Future.run 0 (Future.new FutureType.CASS_FUTURE_TYPE_REQUEST)
        [Op.set_result (some 7), Op.set_error 1 [120], Op.ready] =
      .error Fault.destroyed := by
  decide

/-- C6 (amended): completion is monotonic for as long as the Future is alive.
(a) On a Future that is not set (such as a new one), after any calls `pre`
none of which is a completion call and which leave it alive, `ready()` and
`wait_for(0)` return false.  (b) Once a completion call `comp` has been made,
after every further sequence `post` of calls (reads, retains, releases and
further completion calls) that runs and leaves the Future alive, `is_set` is
true and `ready()` and `wait_for(t)`, for every `t`, return true.  (c) On an
alive Future that holds at least two shares, a completion call followed by any
sequence of reads does run and leaves the Future alive, so that (b) applies:
`ready()` and `wait_for(t)` return true after it. -/
theorem future_completion_monotonic_alive (fuel : Nat) :
    (∀ (f0 f1 : Future) (pre : List Op), f0.is_set_ = false →
      (∀ op ∈ pre, op.is_completion = false) → Future.run fuel f0 pre = .ok f1 →
      f1.deleted = 0 →
      f1.ready = (f1, false) ∧ f1.wait_for 0 = (f1, false) ∧
        f1.call fuel Op.ready = .ok f1) ∧
    (∀ (f1 f2 : Future) (comp : Op) (post : List Op), comp.is_completion = true →
      Future.run fuel f1 (comp :: post) = .ok f2 → f2.deleted = 0 →
      f2.is_set_ = true ∧ f2.ready = (f2, true) ∧ (∀ t, f2.wait_for t = (f2, true)) ∧
        f2.call fuel Op.ready = .ok f2 ∧ ∀ t, f2.call fuel (Op.wait_for t) = .ok f2) ∧
    (∀ (f : Future) (comp : Op) (reads : List Op), comp.is_completion = true →
      f.deleted = 0 → 2 ≤ f.ref_count_ → f.ref_count_ ≤ 2147483647 →
      (∀ op ∈ reads, op.is_read = true) →
      ∃ f2, Future.run fuel f (comp :: reads) = .ok f2 ∧ f2.deleted = 0 ∧
        f2.is_set_ = true ∧ f2.ready = (f2, true) ∧ ∀ t, f2.wait_for t = (f2, true)) := by
  refine ⟨?_, ?_, ?_⟩
  · intro f0 f1 pre h0 hpre h1 ha
    have hf1 : f1.is_set_ = false := by
      rw [Future.run_pending fuel pre f0 f1 h1 hpre]; exact h0
    refine ⟨?_, ?_, ?_⟩
    · rw [Future.ready_eq, hf1]
    · rw [Future.wait_for_eq, hf1]
    · simp [Future.call, ha, Future.ready_eq]
  · intro f1 f2 comp post hcomp h2 ha
    have hf2 : f2.is_set_ = true := by
      simp only [Future.run] at h2
      cases hc : f1.call fuel comp with
      | error e => rw [hc] at h2; cases h2
      | ok f =>
        rw [hc] at h2
        exact Future.run_is_set fuel post f f2 h2
          ((Future.call_is_set fuel f1 f comp hc).2.1 hcomp)
    refine ⟨hf2, ?_, ?_, ?_, ?_⟩
    · rw [Future.ready_eq, hf2]
    · intro t
      rw [Future.wait_for_eq, hf2]
    · simp [Future.call, ha, Future.ready_eq]
    · intro t
      simp [Future.call, ha, Future.wait_for_eq]
  · intro f comp reads hcomp hd h1 h2 hr
    obtain ⟨f1, e1, _, d1, s1⟩ := Future.completion_keeps_alive fuel f comp hcomp hd h1 h2
    refine ⟨f1, ?_, d1, s1, ?_, ?_⟩
    · simp only [Future.run, e1]
      exact Future.run_reads fuel f1 reads s1 d1 hr
    · rw [Future.ready_eq, s1]
    · intro t
      rw [Future.wait_for_eq, s1]

/-- C6 (amended), on a new Future: polled and retained while pending (a);
then completed with the Result 7, read, completed a second time with an error
and polled again, the extra share keeping it alive (b); and a new Future
completed once and read three times (c). -/
theorem future_completion_monotonic_alive_witness :
    ((Future.new FutureType.CASS_FUTURE_TYPE_REQUEST).is_set_ = false ∧
      (∀ op ∈ [Op.ready, Op.wait_for 5, Op.retain], op.is_completion = false) ∧
      Future.run 0 (Future.new FutureType.CASS_FUTURE_TYPE_REQUEST)
          [Op.ready, Op.wait_for 5, Op.retain] = .ok (Future.state 3 none) ∧
      (Future.state 3 none).deleted = 0 ∧
      ((Future.state 3 none).ready = (Future.state 3 none, false) ∧
        (Future.state 3 none).wait_for 0 = (Future.state 3 none, false) ∧
        (Future.state 3 none).call 0 Op.ready = .ok (Future.state 3 none))) ∧
    ((Op.set_result (some 7)).is_completion = true ∧
      Future.run 0 (Future.state 3 none)
          [Op.set_result (some 7), Op.ready, Op.wait, Op.get, Op.set_error 3 [101],
            Op.wait_for 9] =
        .ok (Future.state 1 (some (ResultOrError.of_error 3 [101]))) ∧
      (Future.state 1 (some (ResultOrError.of_error 3 [101]))).deleted = 0 ∧
      ((Future.state 1 (some (ResultOrError.of_error 3 [101]))).is_set_ = true ∧
        (Future.state 1 (some (ResultOrError.of_error 3 [101]))).ready =
          (Future.state 1 (some (ResultOrError.of_error 3 [101])), true) ∧
        (∀ t, (Future.state 1 (some (ResultOrError.of_error 3 [101]))).wait_for t =
          (Future.state 1 (some (ResultOrError.of_error 3 [101])), true)) ∧
        (Future.state 1 (some (ResultOrError.of_error 3 [101]))).call 0 Op.ready =
          .ok (Future.state 1 (some (ResultOrError.of_error 3 [101]))) ∧
        ∀ t, (Future.state 1 (some (ResultOrError.of_error 3 [101]))).call 0 (Op.wait_for t) =
          .ok (Future.state 1 (some (ResultOrError.of_error 3 [101]))))) ∧
    ((Future.new FutureType.CASS_FUTURE_TYPE_REQUEST).deleted = 0 ∧
      (2 : Int) ≤ (Future.new FutureType.CASS_FUTURE_TYPE_REQUEST).ref_count_ ∧
      (Future.new FutureType.CASS_FUTURE_TYPE_REQUEST).ref_count_ ≤ 2147483647 ∧
      (∀ op ∈ [Op.ready, Op.get, Op.wait_for 2], op.is_read = true) ∧
      ∃ f2, Future.run 0 (Future.new FutureType.CASS_FUTURE_TYPE_REQUEST)
          [Op.set_error 3 [101], Op.ready, Op.get, Op.wait_for 2] = .ok f2 ∧
        f2.deleted = 0 ∧ f2.is_set_ = true ∧ f2.ready = (f2, true) ∧
        ∀ t, f2.wait_for t = (f2, true)) :=
  ⟨⟨by decide, by decide, by decide, by decide,
      (future_completion_monotonic_alive 0).1
        (Future.new FutureType.CASS_FUTURE_TYPE_REQUEST) (Future.state 3 none)
        [Op.ready, Op.wait_for 5, Op.retain] (by decide) (by decide) (by decide) (by decide)⟩,
    ⟨by decide, by decide, by decide,
      (future_completion_monotonic_alive 0).2.1 (Future.state 3 none)
        (Future.state 1 (some (ResultOrError.of_error 3 [101]))) (Op.set_result (some 7))
        [Op.ready, Op.wait, Op.get, Op.set_error 3 [101], Op.wait_for 9]
        (by decide) (by decide) (by decide)⟩,
    ⟨by decide, by decide, by decide, by decide,
      (future_completion_monotonic_alive 0).2.2
        (Future.new FutureType.CASS_FUTURE_TYPE_REQUEST) (Op.set_error 3 [101])
        [Op.ready, Op.get, Op.wait_for 2] (by decide) (by decide) (by decide) (by decide)
        (by decide)⟩⟩

/-- C7: on every Future whose two parties both still hold their share (share
count at least 2), pending or not, `set_error(c, m)` returns and leaves the
Future alive; `get()` then returns without parking the stored outcome, for
which `is_error()` is true, `error()` carries exactly the code `c` and the
message `m`, and each of any `n` calls of `release()` in a row returns null. -/
theorem future_set_error_exposes_no_result (fuel n : Nat) (f : Future) (c : CassError)
    (m : StdString) (h1 : 2 ≤ f.ref_count_) (h2 : f.ref_count_ ≤ 2147483647) :
    ∃ f1 roe, f.set_error c m = .ok f1 ∧ f1.deleted = f.deleted ∧
      f1.get fuel = .ok (f1, some roe) ∧ roe.is_error = true ∧
      roe.error = some { code := c, message := m } ∧
      (roe.releases n).1 = List.replicate n none := by
  refine ⟨_, ResultOrError.of_error c m, Future.set_error_of_ge_two f c m h1 h2,
    ?_, ?_, ?_, ?_, ?_⟩
  · rfl
  · simp [Future.get, Future.wait_loop_of_set]
  · simp [ResultOrError.is_error, ResultOrError.of_error]
  · rfl
  · rw [ResultOrError.releases_null n _ rfl]

/-- C7, on a new Future with the error (3, "e") and three calls of
`release()`. -/
theorem future_set_error_exposes_no_result_witness :
    (2 : Int) ≤ (Future.new FutureType.CASS_FUTURE_TYPE_REQUEST).ref_count_ ∧
    (Future.new FutureType.CASS_FUTURE_TYPE_REQUEST).ref_count_ ≤ 2147483647 ∧
    ∃ f1 roe, (Future.new FutureType.CASS_FUTURE_TYPE_REQUEST).set_error 3 [101] = .ok f1 ∧
      f1.deleted = (Future.new FutureType.CASS_FUTURE_TYPE_REQUEST).deleted ∧
      f1.get 0 = .ok (f1, some roe) ∧ roe.is_error = true ∧
      roe.error = some { code := 3, message := [101] } ∧
      (roe.releases 3).1 = List.replicate 3 none :=
  ⟨by decide, by decide,
    future_set_error_exposes_no_result 0 3 (Future.new FutureType.CASS_FUTURE_TYPE_REQUEST)
      3 [101] (by decide) (by decide)⟩

/-- C8: on every Future whose two parties both still hold their share (share
count at least 2), pending or not, `set_result(r)` with a non-null `r` returns
and leaves the Future alive; then `wait()` and `get()` return without parking
(already with fuel 0, and with every fuel), the outcome `get()` returns has
`is_error()` false and a null `error()`, and its first `release()` returns
exactly `r`. -/
theorem future_get_returns_stored_result (f : Future) (r : Nat) (h1 : 2 ≤ f.ref_count_)
    (h2 : f.ref_count_ ≤ 2147483647) :
    ∃ f1 roe, f.set_result (some r) = .ok f1 ∧ f1.deleted = f.deleted ∧
      f1.wait 0 = .ok f1 ∧ f1.get 0 = .ok (f1, some roe) ∧
      (∀ fuel, f1.wait fuel = .ok f1 ∧ f1.get fuel = .ok (f1, some roe)) ∧
      roe.is_error = false ∧ roe.error = none ∧ roe.release.2 = some r := by
  refine ⟨_, ResultOrError.of_result (some r), Future.set_result_of_ge_two f (some r) h1 h2,
    ?_, ?_, ?_, ?_, ?_, ?_, ?_⟩
  · rfl
  · simp [Future.wait, Future.wait_loop_of_set]
  · simp [Future.get, Future.wait_loop_of_set]
  · intro fuel
    simp [Future.wait, Future.get, Future.wait_loop_of_set]
  · simp [ResultOrError.is_error, ResultOrError.of_result]
  · rfl
  · simp [ResultOrError.release_eq, ResultOrError.of_result]

/-- C8, on a new Future with the Result 7. -/
theorem future_get_returns_stored_result_witness :
    (2 : Int) ≤ (Future.new FutureType.CASS_FUTURE_TYPE_REQUEST).ref_count_ ∧
    (Future.new FutureType.CASS_FUTURE_TYPE_REQUEST).ref_count_ ≤ 2147483647 ∧
    ∃ f1 roe, (Future.new FutureType.CASS_FUTURE_TYPE_REQUEST).set_result (some 7) = .ok f1 ∧
      f1.deleted = (Future.new FutureType.CASS_FUTURE_TYPE_REQUEST).deleted ∧
      f1.wait 0 = .ok f1 ∧ f1.get 0 = .ok (f1, some roe) ∧
      (∀ fuel, f1.wait fuel = .ok f1 ∧ f1.get fuel = .ok (f1, some roe)) ∧
      roe.is_error = false ∧ roe.error = none ∧ roe.release.2 = some 7 :=
  ⟨by decide, by decide,
    future_get_returns_stored_result (Future.new FutureType.CASS_FUTURE_TYPE_REQUEST) 7
      (by decide) (by decide)⟩

/-- C9: on a completed Future that has not been destroyed, `ready()`,
`wait()`, `wait_for(t)` and `get()` each return and leave the whole Future
(`is_set`, the stored outcome, the share count) as it was; every sequence of
such reads does too; and a `get()` before and a `get()` after any sequence of
reads return the same stored outcome. -/
theorem future_reads_idempotent (fuel t : Nat) (f : Future) (reads : List Op)
    (hs : f.is_set_ = true) (ha : f.deleted = 0) (hr : ∀ op ∈ reads, op.is_read = true) :
    f.ready = (f, true) ∧ f.wait fuel = .ok f ∧ f.wait_for t = (f, true) ∧
      f.get fuel = .ok (f, f.result_or_error_) ∧ Future.run fuel f reads = .ok f ∧
      ∃ f1 o1 f2 f3 o2, f.get fuel = .ok (f1, o1) ∧ Future.run fuel f1 reads = .ok f2 ∧
        f2.get fuel = .ok (f3, o2) ∧ o2 = o1 ∧ f3 = f := by
  have hg : f.get fuel = .ok (f, f.result_or_error_) := by
    simp [Future.get, Future.wait_loop_of_set fuel f hs]
  have hrun := Future.run_reads fuel f reads hs ha hr
  refine ⟨?_, ?_, ?_, hg, hrun, f, f.result_or_error_, f, f, f.result_or_error_, hg, hrun, hg,
    rfl, rfl⟩
  · rw [Future.ready_eq, hs]
  · exact Future.wait_loop_of_set fuel f hs
  · rw [Future.wait_for_eq, hs]

/-- C9, on a Future completed with the Result 7 whose awaiting side still
holds its share. -/
theorem future_reads_idempotent_witness :
    (Future.state 1 (some (ResultOrError.of_result (some 7)))).is_set_ = true ∧
    (Future.state 1 (some (ResultOrError.of_result (some 7)))).deleted = 0 ∧
    (∀ op ∈ [Op.ready, Op.wait, Op.get, Op.wait_for 4, Op.get], op.is_read = true) ∧
    Future.run 0 (Future.state 1 (some (ResultOrError.of_result (some 7))))
        [Op.ready, Op.wait, Op.get, Op.wait_for 4, Op.get] =
      .ok (Future.state 1 (some (ResultOrError.of_result (some 7)))) :=
  ⟨by decide, by decide, by decide,
    (future_reads_idempotent 0 4 (Future.state 1 (some (ResultOrError.of_result (some 7))))
      [Op.ready, Op.wait, Op.get, Op.wait_for 4, Op.get]
      (by decide) (by decide) (by decide)).2.2.2.2.1⟩

/-- C10: a new Future holds a share count of 2 and is not destroyed.  A
completion call (`set_error(c, m)` or `set_result(r)`) followed by the
awaiting side's `release()`, and equally `release()` followed by the
completion call: the first of the two leaves the count at 1 and the Future
not destroyed, the second lowers it to 0 and destroys the Future, once; any
later call is a call on a destroyed object.  For RefCounted in general,
`release()` destroys the object exactly when the count it leaves is zero:
if the new count is zero the object is destroyed, if it is positive it is
not, and if it is negative the assertion fails. -/
theorem future_two_party_ownership (fuel : Nat) (t : FutureType) (c : CassError)
    (m : StdString) (r : Option Nat) :
    (Future.new t).ref_count_ = 2 ∧ (Future.new t).deleted = 0 ∧
    (∃ f1 f2, (Future.new t).call fuel (Op.set_error c m) = .ok f1 ∧ f1.ref_count_ = 1 ∧
      f1.deleted = 0 ∧ f1.call fuel Op.release = .ok f2 ∧ f2.ref_count_ = 0 ∧
      f2.deleted = 1 ∧ ∀ op, f2.call fuel op = .error Fault.destroyed) ∧
    (∃ f1 f2, (Future.new t).call fuel Op.release = .ok f1 ∧ f1.ref_count_ = 1 ∧
      f1.deleted = 0 ∧ f1.call fuel (Op.set_error c m) = .ok f2 ∧ f2.ref_count_ = 0 ∧
      f2.deleted = 1 ∧ ∀ op, f2.call fuel op = .error Fault.destroyed) ∧
    (∃ f1 f2, (Future.new t).call fuel (Op.set_result r) = .ok f1 ∧ f1.ref_count_ = 1 ∧
      f1.deleted = 0 ∧ f1.call fuel Op.release = .ok f2 ∧ f2.ref_count_ = 0 ∧
      f2.deleted = 1 ∧ ∀ op, f2.call fuel op = .error Fault.destroyed) ∧
    (∃ f1 f2, (Future.new t).call fuel Op.release = .ok f1 ∧ f1.ref_count_ = 1 ∧
      f1.deleted = 0 ∧ f1.call fuel (Op.set_result r) = .ok f2 ∧ f2.ref_count_ = 0 ∧
      f2.deleted = 1 ∧ ∀ op, f2.call fuel op = .error Fault.destroyed) ∧
    (∀ rc : RefCounted,
      (wrap_int (rc.ref_count_ - 1) = 0 ∧
          rc.release = .ok { ref_count_ := 0, deleted := rc.deleted + 1 }) ∨
      (0 < wrap_int (rc.ref_count_ - 1) ∧
          rc.release =
            .ok { ref_count_ := wrap_int (rc.ref_count_ - 1), deleted := rc.deleted }) ∨
      (wrap_int (rc.ref_count_ - 1) < 0 ∧ rc.release = .error Fault.assertion)) :=
  ⟨rfl, rfl, (Future.two_party fuel t (Op.set_error c m) rfl).1,
    (Future.two_party fuel t (Op.set_error c m) rfl).2,
    (Future.two_party fuel t (Op.set_result r) rfl).1,
    (Future.two_party fuel t (Op.set_result r) rfl).2, RefCounted.release_cases⟩

end cass
